import Mathlib

/-!
Verification of the favorites persistence and search-aggregation service of the
movie-search application.  The definitions below are a shallow embedding of
`src/backend/src/movies/movies.service.ts` (class `MoviesService`), of the
`MovieDto` data-transfer object, and of the frontend pagination hook
`useSearchMovies` (its `getNextPageParam` callback).  File-system effects are
made explicit: the durable favorites file is a `FileState` value threaded
through every operation, and each service method returns its result together
with the post-call `StoreState` (in-memory collection plus file).
-/

namespace Movies

/-- MovieDto embeds `dto/movie.dto.ts`: title, imdbID, year (a number), poster. -/
structure MovieDto where
  title : String
  imdbID : String
  year : Int
  poster : String
deriving DecidableEq, Repr

/-- FileState is the observable state of the backing file `data/favorites.json`:
absent, present but not JSON-parseable, or a parsed list of records. -/
inductive FileState where
  | missing : FileState
  | corrupt : FileState
  | content : List MovieDto → FileState
deriving DecidableEq, Repr

/-- StoreState pairs the service's in-memory `this.favorites` array with the
backing file. -/
structure StoreState where
  favorites : List MovieDto
  file : FileState
deriving DecidableEq, Repr

/-- ErrKind classifies the HttpExceptions thrown by the service on the paths
modelled here: BAD_REQUEST validation failures, the duplicate-add conflict,
and NOT_FOUND for a missing removal target. -/
inductive ErrKind where
  | invalidArgument : ErrKind
  | alreadyExists : ErrKind
  | notFound : ErrKind
deriving DecidableEq, Repr

/-- loadFavorites embeds `MoviesService.loadFavorites`: if the file exists and
parses, the in-memory array becomes its content; if the file is absent, the
array becomes empty and `saveFavorites()` creates an empty file; if reading or
parsing throws, the catch block sets the array to empty and leaves the file
untouched. -/
def loadFavorites (s : StoreState) : StoreState :=
  match s.file with
  | .content l => { favorites := l, file := .content l }
  | .missing => { favorites := [], file := .content [] }
  | .corrupt => { favorites := [], file := .corrupt }

/-- reloadFavorites embeds `MoviesService.reloadFavorites`, an alias of
`loadFavorites`. -/
def reloadFavorites (s : StoreState) : StoreState :=
  loadFavorites s

/-- onModuleInit embeds module initialization: starting from an empty in-memory
array, ensure the data directory exists and load (creating the file if absent). -/
def onModuleInit (f : FileState) : StoreState :=
  loadFavorites { favorites := [], file := f }

/-- getFavoritesSet embeds `MoviesService.getFavoritesSet`: the imdbIDs of the
current in-memory favorites (membership below is via `List.contains`, which
coincides with membership in the JS `Set` built from the same array). -/
def getFavoritesSet (s : StoreState) : List String :=
  s.favorites.map (fun fav => fav.imdbID)

/-- jsTrim models JavaScript `String.prototype.trim`: strip leading and
trailing whitespace (structural recursion on the character list, so that the
kernel can evaluate it). -/
def jsTrim (s : String) : String :=
  ⟨((s.data.dropWhile Char.isWhitespace).reverse.dropWhile Char.isWhitespace).reverse⟩

/-- addToFavorites embeds `MoviesService.addToFavorites`.  A falsy `imdbID`
(the empty string) is rejected; otherwise the store reloads from the file,
rejects a duplicate `imdbID`, and else pushes the record and saves. -/
def addToFavorites (s : StoreState) (movieToAdd : MovieDto) :
    Except ErrKind String × StoreState :=
  if movieToAdd.imdbID = "" then
    (.error .invalidArgument, s)
  else
    let s1 := reloadFavorites s
    if s1.favorites.any (fun movie => movie.imdbID = movieToAdd.imdbID) then
      (.error .alreadyExists, s1)
    else
      let favs := s1.favorites ++ [movieToAdd]
      (.ok "Movie added to favorites", { favorites := favs, file := .content favs })

/-- removeFromFavorites embeds `MoviesService.removeFromFavorites`.  An empty or
whitespace-only id is rejected; otherwise the store reloads, looks up the first
index whose record has the given `imdbID` (NOT_FOUND if none), and removes that
single index with `splice(index, 1)` before saving. -/
def removeFromFavorites (s : StoreState) (movieId : String) :
    Except ErrKind String × StoreState :=
  if jsTrim movieId = "" then
    (.error .invalidArgument, s)
  else
    let s1 := reloadFavorites s
    match s1.favorites.findIdx? (fun movie => movie.imdbID = movieId) with
    | none => (.error .notFound, s1)
    | some index =>
        let favs := s1.favorites.eraseIdx index
        (.ok "Movie removed from favorites", { favorites := favs, file := .content favs })

/-- FavoritesData embeds the `data` payload of `FavoritesResult`. -/
structure FavoritesData where
  favorites : List MovieDto
  count : Nat
  totalResults : String
  currentPage : ℚ
  totalPages : Nat
deriving DecidableEq, Repr

/-- getFavorites embeds `MoviesService.getFavorites`.  Pages are JS numbers,
modelled as rationals so that the `Number.isInteger` checks are meaningful;
after validation both are positive integers.  The store reloads, returns the
fixed empty payload when the collection is empty, and otherwise slices
`[(page-1)*pageSize, page*pageSize)` and reports `Math.ceil(length/pageSize)`
total pages. -/
def getFavorites (s : StoreState) (page pageSize : ℚ) :
    Except ErrKind FavoritesData × StoreState :=
  if page < 1 ∨ page.isInt = false then
    (.error .invalidArgument, s)
  else if pageSize < 1 ∨ pageSize.isInt = false then
    (.error .invalidArgument, s)
  else
    let s1 := reloadFavorites s
    if s1.favorites.length = 0 then
      (.ok { favorites := [], count := 0, totalResults := "0",
             currentPage := page, totalPages := 0 }, s1)
    else
      let p := page.num.toNat
      let ps := pageSize.num.toNat
      let startIndex := (p - 1) * ps
      let paginatedFavorites := (s1.favorites.drop startIndex).take ps
      let totalPages := (s1.favorites.length + ps - 1) / ps
      (.ok { favorites := paginatedFavorites,
             count := paginatedFavorites.length,
             totalResults := toString s1.favorites.length,
             currentPage := page,
             totalPages := totalPages }, s1)

/-- OmdbMovie embeds one element of the OMDb `Search` array. -/
structure OmdbMovie where
  Title : String
  imdbID : String
  Year : String
  Poster : String
deriving DecidableEq, Repr

/-- OmdbSearchResponse embeds the `OmdbSearchResponse` interface: optional
`Search` array, optional `totalResults` text, the string-typed `Response`
success flag, and an optional `Error` message. -/
structure OmdbSearchResponse where
  Search : Option (List OmdbMovie)
  totalResults : Option String
  Response : String
  Error : Option String
deriving DecidableEq, Repr

/-- jsTruthyStr reflects JavaScript truthiness of an optional string field:
undefined and the empty string are falsy. -/
def jsTruthyStr : Option String → Bool
  | none => false
  | some e => decide (e ≠ "")

/-- jsOrElseStr reflects the JavaScript idiom `v || dflt` for an optional
string: undefined and the empty string fall back to the default. -/
def jsOrElseStr (v : Option String) (dflt : String) : String :=
  match v with
  | none => dflt
  | some t => if t = "" then dflt else t

/-- SearchOutcome embeds the return value of `MoviesService.searchMovies`. -/
structure SearchOutcome where
  movies : List OmdbMovie
  totalResults : String
deriving DecidableEq, Repr

/-- searchMovies embeds the success path of `MoviesService.searchMovies`: after
validating the query and page, the provider's (already received) response is
normalized — the `Response === 'False'` sentinel or a truthy `Error` field maps
to an empty result, otherwise `Search || []` and `totalResults || '0'` are
returned.  The network itself and the axios error branches are outside this
pure model: `resp` is the decoded body of a completed 200 response. -/
def searchMovies (title : String) (page : Int) (resp : OmdbSearchResponse) :
    Except ErrKind SearchOutcome :=
  if jsTrim title = "" then
    .error .invalidArgument
  else if page < 1 then
    .error .invalidArgument
  else if resp.Response = "False" ∨ jsTruthyStr resp.Error then
    .ok { movies := [], totalResults := "0" }
  else
    .ok { movies := resp.Search.getD [], totalResults := jsOrElseStr resp.totalResults "0" }

/-- TaggedMovie embeds one formatted element of `SearchResult.data.movies`. -/
structure TaggedMovie where
  title : String
  imdbID : String
  year : String
  poster : String
  isFavorite : Bool
deriving DecidableEq, Repr

/-- SearchData embeds the `data` payload of `SearchResult`. -/
structure SearchData where
  movies : List TaggedMovie
  count : Nat
  totalResults : String
deriving DecidableEq, Repr

/-- getMovieByTitle embeds `MoviesService.getMovieByTitle`: delegate to
`searchMovies`, build the favorites set once from the current in-memory
collection (no reload happens here), and tag each result by set membership. -/
def getMovieByTitle (s : StoreState) (title : String) (page : Int)
    (resp : OmdbSearchResponse) : Except ErrKind SearchData :=
  match searchMovies title page resp with
  | .error e => .error e
  | .ok response =>
      let favoritesSet := getFavoritesSet s
      let formattedMovies := response.movies.map fun movie =>
        { title := movie.Title, imdbID := movie.imdbID, year := movie.Year,
          poster := movie.Poster,
          isFavorite := favoritesSet.contains movie.imdbID : TaggedMovie }
      .ok { movies := formattedMovies, count := formattedMovies.length,
            totalResults := response.totalResults }

/-- takeDigits takes the longest prefix of decimal digits. -/
def takeDigits : List Char → List Char
  | [] => []
  | c :: cs => if c.isDigit then c :: takeDigits cs else []

/-- digitsVal reads a digit list as a decimal natural number. -/
def digitsVal (ds : List Char) : Nat :=
  ds.foldl (fun acc c => 10 * acc + (c.toNat - 48)) 0

/-- jsParseInt models ECMAScript `parseInt` as called on the provider's
decimal total-result text: leading whitespace is skipped, an optional sign is
read, and the longest decimal-digit prefix gives the value; `none` stands for
`NaN` (no digits, or the argument is `undefined`). -/
def jsParseInt (text : Option String) : Option Int :=
  match text with
  | none => none
  | some t =>
      match (jsTrim t).toList with
      | '-' :: rest =>
          let ds := takeDigits rest
          if ds = [] then none else some (-(digitsVal ds : Int))
      | '+' :: rest =>
          let ds := takeDigits rest
          if ds = [] then none else some (digitsVal ds)
      | cs =>
          let ds := takeDigits cs
          if ds = [] then none else some (digitsVal ds)

/-- jsCeilDiv is `Math.ceil(a / b)` for an integer numerator and a positive
integer denominator, expressed with integer floor division. -/
def jsCeilDiv (a : Int) (b : Nat) : Int :=
  -((-a).fdiv b)

/-- catalogHasNextPage is the next-page test computed by `getNextPageParam` in
`useSearchMovies` (src/unnamed/part_001), with the page size (10 there) as a
parameter: `parseInt` the total, `Math.ceil(total / pageSize)`, and compare
with the number of pages fetched so far; every comparison with `NaN` is false. -/
def catalogHasNextPage (totalResultsText : Option String) (pageSize pagesFetched : Nat) :
    Bool :=
  match jsParseInt totalResultsText with
  | none => false
  | some totalResults => decide ((pagesFetched : Int) < jsCeilDiv totalResults pageSize)

/-- searchGetNextPage embeds the `getNextPageParam` callback of
`useSearchMovies` itself: page size 10, returning the next page number or
`undefined`. -/
def searchGetNextPage (totalResultsText : Option String) (pagesFetched : Nat) :
    Option Nat :=
  match jsParseInt totalResultsText with
  | none => none
  | some totalResults =>
      let totalPages := jsCeilDiv totalResults 10
      if (pagesFetched : Int) < totalPages then some (pagesFetched + 1) else none

/-- pageStats projects a `getFavorites` call to its (count, totalPages) pair. -/
def pageStats (r : Except ErrKind FavoritesData × StoreState) : Option (Nat × Nat) :=
  r.1.toOption.map fun d => (d.count, d.totalPages)

/-- mkMovie builds the n-th sample favorite record. -/
def mkMovie (n : Nat) : MovieDto :=
  { title := "Movie " ++ toString n, imdbID := "tt000" ++ toString n,
    year := 2000, poster := "N/A" }

/-- favs25 is a 25-record collection with pairwise distinct imdbIDs. -/
def favs25 : List MovieDto :=
  (List.range 25).map mkMovie

/-- st25 is a consistent store holding `favs25` in memory and on disk. -/
def st25 : StoreState :=
  { favorites := favs25, file := .content favs25 }

/-- inception is the sample record of the spec's add/list/remove scenario. -/
def inception : MovieDto :=
  { title := "Inception", imdbID := "tt1375666", year := 2010, poster := "N/A" }

/-- FavOp is one mutating call against the favorites store. -/
inductive FavOp where
  | add : MovieDto → FavOp
  | remove : String → FavOp

/-- execOp runs one mutating call, keeping only the post-call state. -/
def execOp (s : StoreState) : FavOp → StoreState
  | .add m => (addToFavorites s m).2
  | .remove id => (removeFromFavorites s id).2

/-- execOps runs a sequence of mutating calls from a starting state. -/
def execOps (s : StoreState) (ops : List FavOp) : StoreState :=
  ops.foldl execOp s

/-- initState is the store right after module initialization with no
pre-existing file. -/
def initState : StoreState :=
  onModuleInit .missing

/-- StoreInv is the internal consistency invariant of reachable store states:
the file holds exactly the in-memory collection, imdbIDs are pairwise
distinct, and no stored imdbID is the empty string. -/
def StoreInv (s : StoreState) : Prop :=
  s.file = .content s.favorites ∧ (getFavoritesSet s).Nodup ∧ "" ∉ getFavoritesSet s

lemma loadFavorites_content {s : StoreState} {l : List MovieDto}
    (h : s.file = .content l) : loadFavorites s = { favorites := l, file := .content l } := by
  simp [loadFavorites, h]

lemma reload_of_inv {s : StoreState} (h : StoreInv s) : reloadFavorites s = s := by
  obtain ⟨h1, -, -⟩ := h
  rw [reloadFavorites, loadFavorites_content h1, ← h1]

lemma addToFavorites_reload (s : StoreState) (m : MovieDto) :
    addToFavorites s m =
      if m.imdbID = "" then (.error .invalidArgument, s)
      else if (reloadFavorites s).favorites.any (fun movie => decide (movie.imdbID = m.imdbID)) then
        (.error .alreadyExists, reloadFavorites s)
      else (.ok "Movie added to favorites",
        { favorites := (reloadFavorites s).favorites ++ [m],
          file := .content ((reloadFavorites s).favorites ++ [m]) }) := by
  rw [addToFavorites]

lemma removeFromFavorites_reload (s : StoreState) (movieId : String) :
    removeFromFavorites s movieId =
      if jsTrim movieId = "" then (.error .invalidArgument, s)
      else
        match (reloadFavorites s).favorites.findIdx? (fun movie => decide (movie.imdbID = movieId)) with
        | none => (.error .notFound, reloadFavorites s)
        | some index =>
            (.ok "Movie removed from favorites",
              { favorites := (reloadFavorites s).favorites.eraseIdx index,
                file := .content ((reloadFavorites s).favorites.eraseIdx index) }) := by
  rw [removeFromFavorites]

lemma getFavorites_reload (s : StoreState) (page pageSize : ℚ) :
    getFavorites s page pageSize =
      if page < 1 ∨ page.isInt = false then (.error .invalidArgument, s)
      else if pageSize < 1 ∨ pageSize.isInt = false then (.error .invalidArgument, s)
      else if (reloadFavorites s).favorites.length = 0 then
        (.ok { favorites := [], count := 0, totalResults := "0",
               currentPage := page, totalPages := 0 }, reloadFavorites s)
      else
        (.ok { favorites := ((reloadFavorites s).favorites.drop
                 ((page.num.toNat - 1) * pageSize.num.toNat)).take pageSize.num.toNat,
               count := (((reloadFavorites s).favorites.drop
                 ((page.num.toNat - 1) * pageSize.num.toNat)).take pageSize.num.toNat).length,
               totalResults := toString (reloadFavorites s).favorites.length,
               currentPage := page,
               totalPages := ((reloadFavorites s).favorites.length + pageSize.num.toNat - 1) /
                 pageSize.num.toNat }, reloadFavorites s) := by
  rw [getFavorites]

lemma storeInv_init : StoreInv initState := by
  refine ⟨rfl, ?_, ?_⟩ <;> simp [initState, onModuleInit, loadFavorites, getFavoritesSet]

lemma storeInv_add (s : StoreState) (m : MovieDto) (h : StoreInv s) :
    StoreInv (addToFavorites s m).2 := by
  rw [addToFavorites_reload, reload_of_inv h]
  by_cases h0 : m.imdbID = ""
  · rw [if_pos h0]
    exact h
  · rw [if_neg h0]
    by_cases hdup : (s.favorites.any fun movie => decide (movie.imdbID = m.imdbID)) = true
    · rw [if_pos hdup]
      exact h
    · rw [if_neg hdup]
      rw [Bool.not_eq_true, List.any_eq_false] at hdup
      obtain ⟨-, hnd, hne⟩ := h
      refine ⟨rfl, ?_, ?_⟩
      · show ((s.favorites ++ [m]).map (fun fav => fav.imdbID)).Nodup
        rw [List.map_append, List.nodup_append]
        refine ⟨hnd, List.nodup_singleton _, ?_⟩
        intro a ha hb
        simp only [List.map_cons, List.map_nil, List.mem_singleton] at hb
        subst hb
        obtain ⟨fav, hfav, hfa⟩ := List.mem_map.1 ha
        have hne : ¬ fav.imdbID = m.imdbID := by simpa using hdup fav hfav
        exact hne hfa
      · show "" ∉ (s.favorites ++ [m]).map (fun fav => fav.imdbID)
        rw [List.map_append]
        intro hmem
        rcases List.mem_append.1 hmem with hmem | hmem
        · exact hne hmem
        · simp only [List.map_cons, List.map_nil, List.mem_singleton] at hmem
          exact h0 hmem.symm

lemma storeInv_remove (s : StoreState) (id : String) (h : StoreInv s) :
    StoreInv (removeFromFavorites s id).2 := by
  rw [removeFromFavorites_reload, reload_of_inv h]
  by_cases h0 : jsTrim id = ""
  · rw [if_pos h0]
    exact h
  · rw [if_neg h0]
    rcases hfind : s.favorites.findIdx? (fun movie => decide (movie.imdbID = id)) with _ | index <;>
      rw [hfind]
    · exact h
    · obtain ⟨-, hnd, hne⟩ := h
      have hsub : ((s.favorites.eraseIdx index).map (fun fav => fav.imdbID)).Sublist
          (s.favorites.map (fun fav => fav.imdbID)) :=
        (List.eraseIdx_sublist s.favorites index).map _
      exact ⟨rfl, hnd.sublist hsub, fun hmem => hne (hsub.subset hmem)⟩

lemma storeInv_execOp (s : StoreState) (op : FavOp) (h : StoreInv s) :
    StoreInv (execOp s op) := by
  cases op with
  | add m => exact storeInv_add s m h
  | remove id => exact storeInv_remove s id h

lemma storeInv_execOps (ops : List FavOp) (s : StoreState) (h : StoreInv s) :
    StoreInv (execOps s ops) := by
  induction ops generalizing s with
  | nil => exact h
  | cons op rest ih => exact ih _ (storeInv_execOp s op h)

/-- C1: along every sequence of add and remove calls starting from a freshly
initialized store (no out-of-band file edits), the collection never holds two
records with the same externalId, and adding a record whose externalId is
already present fails with AlreadyExists and leaves the state exactly as it
was. -/
theorem uniqueness_invariant (ops : List FavOp) (m : MovieDto) :
    (getFavoritesSet (execOps initState ops)).Nodup ∧
    (m.imdbID ∈ getFavoritesSet (execOps initState ops) →
      addToFavorites (execOps initState ops) m =
        (.error .alreadyExists, execOps initState ops)) := by
  have hinv := storeInv_execOps ops initState storeInv_init
  refine ⟨hinv.2.1, fun hmem => ?_⟩
  have h0 : ¬ m.imdbID = "" := fun he => hinv.2.2 (he ▸ hmem)
  have hany : ((execOps initState ops).favorites.any
      fun movie => decide (movie.imdbID = m.imdbID)) = true := by
    rw [List.any_eq_true]
    obtain ⟨fav, hfav, hfa⟩ := List.mem_map.1 hmem
    exact ⟨fav, hfav, by simpa using hfa⟩
  rw [addToFavorites_reload, reload_of_inv hinv, if_neg h0, if_pos hany]

/-- Witness for C1 at a concrete duplicate add. -/
theorem uniqueness_invariant_witness :
    addToFavorites (execOps initState [FavOp.add inception]) inception =
      (.error .alreadyExists, execOps initState [FavOp.add inception]) :=
  (uniqueness_invariant [FavOp.add inception] inception).2 (by decide)

lemma jsCeilDiv_eq_ceil (a : Int) (b : Nat) :
    jsCeilDiv a b = ⌈(a : ℚ) / (b : ℚ)⌉ := by
  have h : ((-a : Int) : ℚ) / ((b : Nat) : ℚ) = -((a : ℚ) / (b : ℚ)) := by
    push_cast
    ring
  rw [jsCeilDiv, Int.fdiv_eq_ediv _ (Int.natCast_nonneg b),
    ← Rat.floor_intCast_div_natCast (-a) b, h, Int.floor_neg, neg_neg]

lemma natCeilDiv_cast (n k : Nat) (hk : 1 ≤ k) :
    (((n + k - 1) / k : Nat) : Int) = ⌈(n : ℚ) / (k : ℚ)⌉ := by
  have hk0 : (0 : ℚ) < (k : ℚ) := by exact_mod_cast hk
  have key : ((n + k - 1) / k) * k < n + k ∧ n ≤ ((n + k - 1) / k) * k := by
    have h1 : k * ((n + k - 1) / k) + (n + k - 1) % k = n + k - 1 := Nat.div_add_mod _ _
    have h2 : (n + k - 1) % k < k := Nat.mod_lt _ (by omega)
    rw [Nat.mul_comm] at h1
    revert h1
    generalize ((n + k - 1) / k) * k = m
    intro h1
    omega
  rw [eq_comm, Int.ceil_eq_iff]
  simp only [Int.cast_natCast]
  constructor
  · have h2 : (((n + k - 1) / k : Nat) : ℚ) * k < (n : ℚ) + k := by exact_mod_cast key.1
    have h3 : ((((n + k - 1) / k : Nat) : ℚ) - 1) * k = (((n + k - 1) / k : Nat) : ℚ) * k - k := by
      ring
    rw [lt_div_iff₀ hk0, h3, sub_lt_iff_lt_add]
    exact h2
  · rw [div_le_iff₀ hk0]
    exact_mod_cast key.2

/-- PageOkSpec states the expected successful page for an integral page `p` and
page size `ps`, both at least 1, against a collection `l`: the returned items
are the slice [(p-1)*ps, p*ps) of `l` clipped to its bounds, the count is the
slice length, totalResults is the collection size as text, the requested page
is echoed, totalPages is the ceiling of `l.length / ps`, and a page past the
end yields an empty item list (still without error). -/
def PageOkSpec (s : StoreState) (l : List MovieDto) (p ps : Nat) : Prop :=
  ∃ d, (getFavorites s (p : ℚ) (ps : ℚ)).1 = .ok d ∧
    d.favorites = (l.take (p * ps)).drop ((p - 1) * ps) ∧
    d.count = d.favorites.length ∧
    d.totalResults = toString l.length ∧
    d.currentPage = (p : ℚ) ∧
    ((d.totalPages : Int) = ⌈(l.length : ℚ) / (ps : ℚ)⌉) ∧
    (l.length ≤ (p - 1) * ps → d.favorites = [])

lemma natCast_isInt (p : Nat) : ((p : ℚ)).isInt = true := by
  simp [Rat.isInt, Rat.den_natCast]

lemma natCast_num_toNat (p : Nat) : ((p : ℚ)).num.toNat = p := by
  rw [Rat.num_natCast, Int.toNat_natCast]

/-- C2: pagination window correctness of getFavorites — valid integral
arguments produce the clipped slice with ceiling total-page count (out-of-range
pages giving an empty list, not an error), invalid arguments fail with
InvalidArgument, and the 25-item/page-size-10 instance produces pages of
10, 10, 5 and 0 items with totalPages 3. -/
theorem pagination_window (s : StoreState) (l : List MovieDto) (hfile : s.file = .content l) :
    (∀ p ps : Nat, 1 ≤ p → 1 ≤ ps → PageOkSpec s l p ps) ∧
    (∀ page pageSize : ℚ,
      ¬((1 ≤ page ∧ page.isInt = true) ∧ (1 ≤ pageSize ∧ pageSize.isInt = true)) →
      (getFavorites s page pageSize).1 = .error .invalidArgument) ∧
    pageStats (getFavorites st25 1 10) = some (10, 3) ∧
    pageStats (getFavorites st25 2 10) = some (10, 3) ∧
    pageStats (getFavorites st25 3 10) = some (5, 3) ∧
    pageStats (getFavorites st25 4 10) = some (0, 3) := by
  have hreload : reloadFavorites s = { favorites := l, file := .content l } := by
    rw [reloadFavorites, loadFavorites_content hfile]
  refine ⟨?_, ?_, by decide, by decide, by decide, by decide⟩
  · intro p ps hp hps
    have hc1 : ¬((p : ℚ) < 1 ∨ ((p : ℚ)).isInt = false) := by
      rintro (h | h)
      · exact absurd h (not_lt.2 (by exact_mod_cast hp))
      · rw [natCast_isInt p] at h
        cases h
    have hc2 : ¬((ps : ℚ) < 1 ∨ ((ps : ℚ)).isInt = false) := by
      rintro (h | h)
      · exact absurd h (not_lt.2 (by exact_mod_cast hps))
      · rw [natCast_isInt ps] at h
        cases h
    rw [PageOkSpec]
    rw [getFavorites_reload, if_neg hc1, if_neg hc2, hreload]
    simp only [natCast_num_toNat]
    by_cases hlen : l.length = 0
    · rw [if_pos hlen]
      obtain rfl : l = [] := List.length_eq_zero.1 hlen
      exact ⟨_, rfl, by simp, rfl, rfl, rfl, by simp, fun _ => rfl⟩
    · rw [if_neg hlen]
      have harith : (p - 1) * ps + ps = p * ps := by
        have h1 : ps ≤ p * ps := Nat.le_mul_of_pos_left ps (by omega)
        rw [Nat.sub_mul, one_mul]
        omega
      refine ⟨_, rfl, ?_, rfl, rfl, rfl, natCeilDiv_cast l.length ps hps, ?_⟩
      · rw [List.take_drop, harith]
      · intro hle
        rw [List.drop_eq_nil_of_le hle, List.take_nil]
  · intro page pageSize hbad
    rw [getFavorites_reload]
    by_cases hc1 : page < 1 ∨ page.isInt = false
    · rw [if_pos hc1]
    · rw [if_neg hc1]
      have hp1 : 1 ≤ page := not_lt.1 fun h => hc1 (Or.inl h)
      have hp2 : page.isInt = true := by
        cases hb : page.isInt
        · exact absurd (Or.inr hb) hc1
        · rfl
      have hq : ¬(1 ≤ pageSize ∧ pageSize.isInt = true) := fun h2 => hbad ⟨⟨hp1, hp2⟩, h2⟩
      have hc2 : pageSize < 1 ∨ pageSize.isInt = false := by
        by_cases hq1 : pageSize < 1
        · exact Or.inl hq1
        · right
          cases hqb : pageSize.isInt
          · rfl
          · exact absurd ⟨not_lt.1 hq1, hqb⟩ hq
      rw [if_pos hc2]

/-- Witness for C2 at the concrete 25-record store, page 2, page size 10. -/
theorem pagination_window_witness : PageOkSpec st25 favs25 2 10 :=
  (pagination_window st25 favs25 rfl).1 2 10 (by decide) (by decide)

instance exceptDecEq {ε α : Type} [DecidableEq ε] [DecidableEq α] :
    DecidableEq (Except ε α) := fun x y =>
  match x, y with
  | .ok a, .ok b =>
      if h : a = b then .isTrue (by rw [h]) else .isFalse (by intro hc; cases hc; exact h rfl)
  | .error a, .error b =>
      if h : a = b then .isTrue (by rw [h]) else .isFalse (by intro hc; cases hc; exact h rfl)
  | .ok _, .error _ => .isFalse (by intro hc; cases hc)
  | .error _, .ok _ => .isFalse (by intro hc; cases hc)

lemma natCast_page_valid (p : Nat) (hp : 1 ≤ p) :
    ¬((p : ℚ) < 1 ∨ ((p : ℚ)).isInt = false) := by
  rintro (h | h)
  · exact absurd h (not_lt.2 (by exact_mod_cast hp))
  · rw [natCast_isInt p] at h
    cases h

/-- Counterexample for C3 as stated: on an empty store, a request for page 2
succeeds with currentPage echoed as 2, not 1. -/
theorem empty_favorites_currentPage_cex :
    (getFavorites { favorites := [], file := .content [] } 2 10).1 =
      .ok { favorites := [], count := 0, totalResults := "0",
            currentPage := 2, totalPages := 0 } ∧
    ((getFavorites { favorites := [], file := .content [] } 2 10).1.toOption.map
      (fun d => d.currentPage)) ≠ some 1 := by
  decide

/-- C3 (amended): listFavorites on an empty (freshly initialized or
missing-file) store never fails for integral page and pageSize at least 1, and
returns no items, count 0, totalResults "0", totalPages 0, and currentPage
equal to the requested page (hence 1 exactly when page 1 is requested). -/
theorem empty_favorites_success (s : StoreState) (p ps : Nat)
    (hfile : s.file = .missing ∨ s.file = .content []) (hp : 1 ≤ p) (hps : 1 ≤ ps) :
    (getFavorites s (p : ℚ) (ps : ℚ)).1 =
      .ok { favorites := [], count := 0, totalResults := "0",
            currentPage := (p : ℚ), totalPages := 0 } := by
  have hreload : (reloadFavorites s).favorites = [] := by
    rcases hfile with h | h <;> simp [reloadFavorites, loadFavorites, h]
  rw [getFavorites_reload, if_neg (natCast_page_valid p hp), if_neg (natCast_page_valid ps hps),
    if_pos (by rw [hreload]; rfl)]

/-- Witness for C3's amended claim at a missing-file store, page 3. -/
theorem empty_favorites_success_witness :
    (getFavorites { favorites := [], file := .missing } ((3 : Nat) : ℚ) ((10 : Nat) : ℚ)).1 =
      .ok { favorites := [], count := 0, totalResults := "0",
            currentPage := ((3 : Nat) : ℚ), totalPages := 0 } :=
  empty_favorites_success { favorites := [], file := .missing } 3 10 (Or.inl rfl)
    (by decide) (by decide)

lemma countP_one_split {α : Type} (p : α → Bool) (l : List α) (h : l.countP p = 1) :
    ∃ i, l.findIdx? p = some i ∧ (l.eraseIdx i).countP p = 0 := by
  induction l with
  | nil => simp at h
  | cons a t ih =>
    by_cases hp : p a = true
    · refine ⟨0, ?_, ?_⟩
      · rw [List.findIdx?_cons, if_pos hp]
      · rw [List.countP_cons_of_pos p t hp] at h
        simpa [List.eraseIdx] using (by omega : t.countP p = 0)
    · rw [List.countP_cons_of_neg p t hp] at h
      obtain ⟨i, hfind, hz⟩ := ih h
      refine ⟨i + 1, ?_, ?_⟩
      · rw [List.findIdx?_cons, if_neg hp, List.findIdx?_succ, hfind]
        rfl
      · simpa [List.eraseIdx, List.countP_cons_of_neg p _ hp] using hz

lemma countP_zero_findIdx {α : Type} (p : α → Bool) (l : List α) (h : l.countP p = 0) :
    l.findIdx? p = none := by
  rw [List.findIdx?_eq_none_iff]
  intro x hx
  cases hpb : p x
  · rfl
  · exact absurd hpb ((List.countP_eq_zero.1 h) x hx)

lemma count_ids_eq_countP (l : List MovieDto) (id : String) :
    (l.map (fun r => r.imdbID)).count id =
      l.countP (fun movie => decide (movie.imdbID = id)) := by
  rw [List.count_eq_countP, List.countP_map]
  apply List.countP_congr
  intro r _
  show (r.imdbID == id) = true ↔ decide (r.imdbID = id) = true
  by_cases h : r.imdbID = id <;> simp [h]

/-- C4: removal error semantics — an empty or whitespace-only id always fails
InvalidArgument without touching the state; for a valid id against the reloaded
collection, the call fails NotFound exactly when no record carries that id; and
when exactly one record carries it, the first removal succeeds and an
immediately repeated removal fails NotFound. -/
theorem removal_error_semantics :
    (∀ (s : StoreState) (id : String), jsTrim id = "" →
      removeFromFavorites s id = (.error .invalidArgument, s)) ∧
    (∀ (s : StoreState) (l : List MovieDto) (id : String),
      s.file = .content l → ¬ jsTrim id = "" →
      ((removeFromFavorites s id).1 = .error .notFound ↔
        id ∉ l.map (fun r => r.imdbID))) ∧
    (∀ (s : StoreState) (l : List MovieDto) (id : String),
      s.file = .content l → ¬ jsTrim id = "" →
      (l.map (fun r => r.imdbID)).count id = 1 →
      (removeFromFavorites s id).1 = .ok "Movie removed from favorites" ∧
      (removeFromFavorites (removeFromFavorites s id).2 id).1 = .error .notFound) := by
  refine ⟨?_, ?_, ?_⟩
  · intro s id h
    rw [removeFromFavorites_reload, if_pos h]
  · intro s l id hfile h0
    have hreload : reloadFavorites s = { favorites := l, file := .content l } := by
      rw [reloadFavorites, loadFavorites_content hfile]
    rw [removeFromFavorites_reload, if_neg h0]
    simp only [hreload]
    cases hfind : l.findIdx? (fun movie => decide (movie.imdbID = id)) with
    | none =>
      simp only [hfind]
      constructor
      · intro _ hmem
        rw [List.findIdx?_eq_none_iff] at hfind
        obtain ⟨r, hr, hrid⟩ := List.mem_map.1 hmem
        have hfalse := hfind r hr
        rw [hrid] at hfalse
        simp at hfalse
      · intro _
        trivial
    | some i =>
      simp only [hfind]
      constructor
      · intro hok
        cases hok
      · intro hnotmem
        exfalso
        obtain ⟨hlt, hp, -⟩ := List.findIdx?_eq_some_iff_getElem.1 hfind
        exact hnotmem (List.mem_map.2 ⟨l[i], List.getElem_mem hlt, of_decide_eq_true hp⟩)
  · intro s l id hfile h0 hcount
    have hreload : reloadFavorites s = { favorites := l, file := .content l } := by
      rw [reloadFavorites, loadFavorites_content hfile]
    have hcp : l.countP (fun movie => decide (movie.imdbID = id)) = 1 := by
      rw [← count_ids_eq_countP]
      exact hcount
    obtain ⟨i, hfind, hz⟩ := countP_one_split _ l hcp
    rw [removeFromFavorites_reload, if_neg h0]
    simp only [hreload, hfind]
    refine ⟨trivial, ?_⟩
    have hreload2 : reloadFavorites
        { favorites := l.eraseIdx i, file := FileState.content (l.eraseIdx i) } =
        { favorites := l.eraseIdx i, file := FileState.content (l.eraseIdx i) } := by
      rw [reloadFavorites, loadFavorites_content rfl]
    rw [removeFromFavorites_reload, if_neg h0]
    simp only [hreload2, countP_zero_findIdx _ _ hz]

/-- Witness for C4: removing Inception twice from a store that held it once
succeeds, then fails NotFound. -/
theorem removal_error_semantics_witness :
    (removeFromFavorites (StoreState.mk [inception] (.content [inception])) "tt1375666").1 =
      .ok "Movie removed from favorites" ∧
    (removeFromFavorites
      (removeFromFavorites (StoreState.mk [inception] (.content [inception])) "tt1375666").2
      "tt1375666").1 = .error .notFound :=
  removal_error_semantics.2.2 (StoreState.mk [inception] (.content [inception]))
    [inception] "tt1375666" rfl (by decide) (by decide)

/-- C5: the provider's no-results sentinel (`Response` equal to the text
"False") always maps to a successful empty result with totalResults "0",
never to a failure, for any valid query and page. -/
theorem no_results_sentinel (title : String) (page : Int) (resp : OmdbSearchResponse)
    (ht : ¬ jsTrim title = "") (hp : 1 ≤ page) (hfalse : resp.Response = "False") :
    searchMovies title page resp = .ok { movies := [], totalResults := "0" } := by
  rw [searchMovies, if_neg ht, if_neg (not_lt.2 hp), if_pos (Or.inl hfalse)]

/-- Witness for C5 at a concrete sentinel response. -/
theorem no_results_sentinel_witness :
    searchMovies "matrix" 1
      { Search := none, totalResults := none, Response := "False",
        Error := some "Movie not found!" } =
      .ok { movies := [], totalResults := "0" } :=
  no_results_sentinel "matrix" 1 _ (by decide) (by decide) rfl

/-- C6: the frontend next-page test returns true exactly when the pages
fetched so far are fewer than the ceiling of parsed-total over page size, a
non-numeric or missing total behaving as 0 (never an error); and the
`useSearchMovies` callback is this test at page size 10, returning the next
page number. -/
theorem catalog_next_page (totalResultsText : Option String) (pageSize pagesFetched : Nat) :
    (catalogHasNextPage totalResultsText pageSize pagesFetched = true ↔
      (pagesFetched : Int) <
        ⌈(((jsParseInt totalResultsText).getD 0 : Int) : ℚ) / (pageSize : ℚ)⌉) ∧
    searchGetNextPage totalResultsText pagesFetched =
      (if catalogHasNextPage totalResultsText 10 pagesFetched then some (pagesFetched + 1)
       else none) := by
  constructor
  · rw [catalogHasNextPage]
    cases hparse : jsParseInt totalResultsText with
    | none =>
      simp only [hparse, Option.getD, Int.cast_zero, zero_div, Int.ceil_zero]
      constructor
      · intro h
        cases h
      · intro h
        exact absurd h (by omega)
    | some n =>
      simp only [hparse, Option.getD, decide_eq_true_eq]
      rw [jsCeilDiv_eq_ceil]
  · rw [searchGetNextPage, catalogHasNextPage]
    cases hparse : jsParseInt totalResultsText with
    | none => simp [hparse]
    | some n => simp only [hparse, decide_eq_true_eq]

lemma addToFavorites_fst (s : StoreState) (m : MovieDto) :
    (addToFavorites s m).1 =
      if m.imdbID = "" then .error .invalidArgument
      else if (reloadFavorites s).favorites.any (fun movie => decide (movie.imdbID = m.imdbID)) then
        .error .alreadyExists
      else .ok "Movie added to favorites" := by
  rw [addToFavorites_reload]
  by_cases h0 : m.imdbID = ""
  · rw [if_pos h0, if_pos h0]
  · rw [if_neg h0, if_neg h0]
    by_cases hdup : ((reloadFavorites s).favorites.any
        fun movie => decide (movie.imdbID = m.imdbID)) = true
    · rw [if_pos hdup, if_pos hdup]
    · rw [if_neg hdup, if_neg hdup]

lemma removeFromFavorites_fst (s : StoreState) (movieId : String) :
    (removeFromFavorites s movieId).1 =
      if jsTrim movieId = "" then .error .invalidArgument
      else
        match (reloadFavorites s).favorites.findIdx?
            (fun movie => decide (movie.imdbID = movieId)) with
        | none => .error .notFound
        | some _ => .ok "Movie removed from favorites" := by
  rw [removeFromFavorites_reload]
  by_cases h0 : jsTrim movieId = ""
  · rw [if_pos h0, if_pos h0]
  · rw [if_neg h0, if_neg h0]
    cases hfind : (reloadFavorites s).favorites.findIdx?
        (fun movie => decide (movie.imdbID = movieId)) with
    | none => simp only [hfind]
    | some i => simp only [hfind]

lemma getFavorites_fst (s : StoreState) (page pageSize : ℚ) :
    (getFavorites s page pageSize).1 =
      (getFavorites
        (StoreState.mk (reloadFavorites s).favorites (.content (reloadFavorites s).favorites))
        page pageSize).1 := by
  have hre : reloadFavorites
      (StoreState.mk (reloadFavorites s).favorites (.content (reloadFavorites s).favorites)) =
      StoreState.mk (reloadFavorites s).favorites (.content (reloadFavorites s).favorites) := by
    rw [reloadFavorites, loadFavorites_content rfl]
  rw [getFavorites_reload, getFavorites_reload, hre]
  by_cases c1 : page < 1 ∨ page.isInt = false
  · rw [if_pos c1, if_pos c1]
  · rw [if_neg c1, if_neg c1]
    by_cases c2 : pageSize < 1 ∨ pageSize.isInt = false
    · rw [if_pos c2, if_pos c2]
    · rw [if_neg c2, if_neg c2]
      by_cases c3 : (reloadFavorites s).favorites.length = 0
      · rw [if_pos c3, if_pos c3]
      · rw [if_neg c3, if_neg c3]

/-- C7: when the backing file is absent or unreadable, list, add and remove
all behave exactly as on an empty collection (the read failure is never
surfaced), and a subsequent valid add succeeds and persists a well-formed
file containing exactly the added record. -/
theorem corrupted_file_recovery (s : StoreState)
    (hs : s.file = .missing ∨ s.file = .corrupt) :
    (∀ page pageSize : ℚ, (getFavorites s page pageSize).1 =
      (getFavorites { favorites := [], file := .content [] } page pageSize).1) ∧
    (∀ m : MovieDto, (addToFavorites s m).1 =
      (addToFavorites { favorites := [], file := .content [] } m).1) ∧
    (∀ id : String, (removeFromFavorites s id).1 =
      (removeFromFavorites { favorites := [], file := .content [] } id).1) ∧
    (∀ m : MovieDto, ¬ m.imdbID = "" →
      addToFavorites s m = (.ok "Movie added to favorites",
        { favorites := [m], file := .content [m] })) := by
  have hempty : (reloadFavorites s).favorites = [] := by
    rcases hs with h | h <;> simp [reloadFavorites, loadFavorites, h]
  have hempty2 : (reloadFavorites { favorites := [], file := FileState.content [] }).favorites =
      ([] : List MovieDto) := by
    rw [reloadFavorites, loadFavorites_content rfl]
  refine ⟨?_, ?_, ?_, ?_⟩
  · intro page pageSize
    rw [getFavorites_fst s, hempty,
      getFavorites_fst (StoreState.mk [] (.content [])), hempty2]
  · intro m
    rw [addToFavorites_fst s, hempty,
      addToFavorites_fst (StoreState.mk [] (.content [])), hempty2]
  · intro id
    rw [removeFromFavorites_fst s, hempty,
      removeFromFavorites_fst (StoreState.mk [] (.content [])), hempty2]
  · intro m h0
    rw [addToFavorites_reload, if_neg h0, hempty]
    rw [if_neg (by simp)]
    rfl

/-- Witness for C7: a valid add on a corrupt-file store succeeds and rewrites
the file with exactly the added record. -/
theorem corrupted_file_recovery_witness :
    addToFavorites { favorites := [], file := FileState.corrupt } inception =
      (.ok "Movie added to favorites",
        { favorites := [inception], file := .content [inception] }) :=
  (corrupted_file_recovery { favorites := [], file := .corrupt } (Or.inr rfl)).2.2.2
    inception (by decide)

lemma getMovieByTitle_tag (s : StoreState) (title : String) (page : Int)
    (resp : OmdbSearchResponse) (d : SearchData)
    (hok : getMovieByTitle s title page resp = .ok d) :
    ∀ x ∈ d.movies, x.isFavorite = (getFavoritesSet s).contains x.imdbID := by
  rw [getMovieByTitle] at hok
  cases hs : searchMovies title page resp with
  | error e =>
    rw [hs] at hok
    cases hok
  | ok out =>
    rw [hs] at hok
    injection hok with h
    subst h
    intro x hx
    obtain ⟨movie, hm, rfl⟩ := List.mem_map.1 hx
    rfl

/-- C8: every item returned by a tagged search carries isFavorite equal to
membership of its externalId in the favorites set computed from the store for
that call; in particular, immediately after a successful add, every result
item with the added record's externalId is tagged isFavorite = true. -/
theorem search_favorite_tagging :
    (∀ (s : StoreState) (title : String) (page : Int) (resp : OmdbSearchResponse)
      (d : SearchData), getMovieByTitle s title page resp = .ok d →
      ∀ x ∈ d.movies, x.isFavorite = (getFavoritesSet s).contains x.imdbID) ∧
    (∀ (s : StoreState) (m : MovieDto) (msg : String), (addToFavorites s m).1 = .ok msg →
      ∀ (title : String) (page : Int) (resp : OmdbSearchResponse) (d : SearchData),
      getMovieByTitle (addToFavorites s m).2 title page resp = .ok d →
      ∀ x ∈ d.movies, x.imdbID = m.imdbID → x.isFavorite = true) := by
  constructor
  · exact fun s title page resp d h => getMovieByTitle_tag s title page resp d h
  · intro s m msg hadd title page resp d hok x hx hid
    have htag := getMovieByTitle_tag _ title page resp d hok x hx
    rw [htag, hid]
    by_cases h0 : m.imdbID = ""
    · rw [addToFavorites_fst, if_pos h0] at hadd
      cases hadd
    · by_cases hdup : ((reloadFavorites s).favorites.any
          fun movie => decide (movie.imdbID = m.imdbID)) = true
      · rw [addToFavorites_fst, if_neg h0, if_pos hdup] at hadd
        cases hadd
      · have h2 : (addToFavorites s m).2 =
            StoreState.mk ((reloadFavorites s).favorites ++ [m])
              (.content ((reloadFavorites s).favorites ++ [m])) := by
          rw [addToFavorites_reload, if_neg h0, if_neg hdup]
        rw [h2]
        show (((reloadFavorites s).favorites ++ [m]).map
          (fun fav => fav.imdbID)).contains m.imdbID = true
        simp

/-- Witness for C8: after adding Inception to an empty store, a search result
for the same externalId comes back tagged as a favorite. -/
theorem search_favorite_tagging_witness :
    (TaggedMovie.mk "Inception" "tt1375666" "2010" "N/A" true).isFavorite = true :=
  search_favorite_tagging.2 (StoreState.mk [] (.content [])) inception
    "Movie added to favorites" rfl "inception" 1
    (OmdbSearchResponse.mk (some [OmdbMovie.mk "Inception" "tt1375666" "2010" "N/A"])
      (some "1") "True" none)
    (SearchData.mk [TaggedMovie.mk "Inception" "tt1375666" "2010" "N/A" true] 1 "1")
    (by decide) (TaggedMovie.mk "Inception" "tt1375666" "2010" "N/A" true)
    (by decide) rfl

lemma findIdx?_first {α : Type} (p : α → Bool) (pre : List α) (x : α) (post : List α)
    (hx : p x = true) (hpre : ∀ y ∈ pre, p y = false) :
    (pre ++ x :: post).findIdx? p = some pre.length := by
  rw [List.findIdx?_eq_some_iff_getElem]
  have hlt : pre.length < (pre ++ x :: post).length := by simp
  refine ⟨hlt, ?_, ?_⟩
  · rw [List.getElem_append_right (le_refl pre.length)]
    simpa using hx
  · intro j hj
    rw [List.getElem_append_left hj, hpre _ (List.getElem_mem hj)]
    simp

lemma eraseIdx_append_len {α : Type} (pre : List α) (x : α) (post : List α) :
    (pre ++ x :: post).eraseIdx pre.length = pre ++ post := by
  rw [List.eraseIdx_append_of_length_le (le_refl pre.length)]
  simp [List.eraseIdx]

/-- C9: frame effect of the two mutations — a successful add appends the new
record at the end, leaving every existing record and their order unchanged;
and remove deletes exactly the first record whose externalId matches, leaving
every record before and after it, and their relative order, unchanged. -/
theorem mutation_frame_effect :
    (∀ (s : StoreState) (l : List MovieDto) (m : MovieDto),
      s.file = .content l → ¬ m.imdbID = "" → (∀ r ∈ l, ¬ r.imdbID = m.imdbID) →
      addToFavorites s m = (.ok "Movie added to favorites",
        StoreState.mk (l ++ [m]) (.content (l ++ [m])))) ∧
    (∀ (s : StoreState) (id : String) (pre : List MovieDto) (x : MovieDto)
      (post : List MovieDto),
      s.file = .content (pre ++ x :: post) → ¬ jsTrim id = "" →
      x.imdbID = id → (∀ y ∈ pre, ¬ y.imdbID = id) →
      removeFromFavorites s id = (.ok "Movie removed from favorites",
        StoreState.mk (pre ++ post) (.content (pre ++ post)))) := by
  constructor
  · intro s l m hfile h0 hnew
    have hreload : reloadFavorites s = { favorites := l, file := .content l } := by
      rw [reloadFavorites, loadFavorites_content hfile]
    rw [addToFavorites_reload, if_neg h0, hreload]
    rw [if_neg ?hc]
    case hc =>
      rw [Bool.not_eq_true, List.any_eq_false]
      intro r hr
      simpa using hnew r hr
  · intro s id pre x post hfile h0 hx hpre
    have hreload : reloadFavorites s =
        { favorites := pre ++ x :: post, file := .content (pre ++ x :: post) } := by
      rw [reloadFavorites, loadFavorites_content hfile]
    have hfind : (pre ++ x :: post).findIdx? (fun movie => decide (movie.imdbID = id)) =
        some pre.length := by
      refine findIdx?_first _ pre x post (by simpa using hx) ?_
      intro y hy
      simpa using hpre y hy
    rw [removeFromFavorites_reload, if_neg h0]
    simp only [hreload, hfind, eraseIdx_append_len]

/-- Witness for C9's removal at a three-record collection: exactly the first
matching record goes, the surrounding records stay in order. -/
theorem mutation_frame_effect_witness :
    removeFromFavorites
      (StoreState.mk [mkMovie 0, inception, mkMovie 1]
        (.content [mkMovie 0, inception, mkMovie 1])) "tt1375666" =
      (.ok "Movie removed from favorites",
        StoreState.mk [mkMovie 0, mkMovie 1] (.content [mkMovie 0, mkMovie 1])) :=
  mutation_frame_effect.2
    (StoreState.mk [mkMovie 0, inception, mkMovie 1]
      (.content [mkMovie 0, inception, mkMovie 1]))
    "tt1375666" [mkMovie 0] inception [mkMovie 1] rfl (by decide) rfl (by decide)

/-- Counterexample for C10 as stated: a remove that fails NotFound against a
missing backing file still writes — reload creates the empty favorites file,
so the durable state after the failed call differs from the state before it. -/
theorem failed_mutation_write_cex :
    (removeFromFavorites (StoreState.mk [] .missing) "tt0000001").1 = .error .notFound ∧
    (removeFromFavorites (StoreState.mk [] .missing) "tt0000001").2.file = .content [] ∧
    FileState.content ([] : List MovieDto) ≠ .missing := by
  decide

/-- C10 (amended): whenever add or remove fails and the backing file exists
(readable or not), the durable file is exactly what it was before the call —
the persist step runs only after a successful in-memory mutation; only the
missing-file case differs, where reload itself creates an empty favorites
file before the mutation fails. -/
theorem failed_mutation_no_write (s : StoreState) (hs : ¬ s.file = .missing) :
    (∀ (m : MovieDto) (e : ErrKind), (addToFavorites s m).1 = .error e →
      (addToFavorites s m).2.file = s.file) ∧
    (∀ (id : String) (e : ErrKind), (removeFromFavorites s id).1 = .error e →
      (removeFromFavorites s id).2.file = s.file) := by
  have hfile : (reloadFavorites s).file = s.file := by
    cases hf : s.file with
    | missing => exact absurd hf hs
    | corrupt => simp [reloadFavorites, loadFavorites, hf]
    | content l => simp [reloadFavorites, loadFavorites, hf]
  constructor
  · intro m e he
    rw [addToFavorites_reload] at he ⊢
    by_cases h0 : m.imdbID = ""
    · rw [if_pos h0]
    · rw [if_neg h0] at he ⊢
      by_cases hdup : ((reloadFavorites s).favorites.any
          fun movie => decide (movie.imdbID = m.imdbID)) = true
      · rw [if_pos hdup]
        exact hfile
      · rw [if_neg hdup] at he
        cases he
  · intro id e he
    rw [removeFromFavorites_reload] at he ⊢
    by_cases h0 : jsTrim id = ""
    · rw [if_pos h0]
    · rw [if_neg h0] at he ⊢
      cases hfind : (reloadFavorites s).favorites.findIdx?
          (fun movie => decide (movie.imdbID = id)) with
      | none =>
        simp only [hfind]
        exact hfile
      | some i =>
        rw [hfind] at he
        cases he

/-- Witness for C10's amended claim: a NotFound removal on an existing empty
file leaves the file content unchanged. -/
theorem failed_mutation_no_write_witness :
    (removeFromFavorites (StoreState.mk [] (.content [])) "tt0000001").2.file =
      (StoreState.mk [] (.content [])).file :=
  (failed_mutation_no_write (StoreState.mk [] (.content [])) (by decide)).2
    "tt0000001" .notFound (by decide)

end Movies
